import Mathlib

/-!
Shallow embedding of the kitty reverse-tunnel proxy.

Sources embedded here:
* `helper` package: `IsEmptyStruct`, `SetValue` (dynamic config-vs-default chooser).
* `server/config` package: `loadConfig`, `GetConfig`.
* `manager` package (client-side kitty manager): the `Manage` select loop over
  `registerWs` / `registerChain` / `unregisterChain` / `Pipe` events, with its
  `pipes` (ticket -> public conn) and `channels` (ticket -> data socket) maps.
* server-side dispatcher `Manager.manage`: the select loop over
  `registerDomain` / `unregisterDomain` / `remoteConn` / `done` events over the
  `hubs` map, and the fixed `badGatewayResponse` string.

Go maps are modelled as association lists with replace-in-place insertion and
key deletion; Go's `nil` zero values become `Option`/`none`.  Side effects the
loops perform (channel sends, socket writes, closes, goroutines spawned) are
reified as an effect list returned next to the updated state, so that theorems
can state both what the code does and what it does not do.
-/

namespace Kitty

/-- Lookup in a Go map modelled as an association list (`m[k]`, comma-ok form:
`none` when the key is absent). -/
def assocGet {α β : Type} [DecidableEq α] (l : List (α × β)) (k : α) : Option β :=
  match l with
  | [] => none
  | (k', v) :: rest => if k = k' then some v else assocGet rest k

/-- Go map assignment `m[k] = v`: replace the binding in place when the key is
present, append it otherwise. -/
def assocSet {α β : Type} [DecidableEq α] (l : List (α × β)) (k : α) (v : β) :
    List (α × β) :=
  match l with
  | [] => [(k, v)]
  | (k', v') :: rest => if k = k' then (k, v) :: rest else (k', v') :: assocSet rest k v

/-- Go `delete(m, k)`: remove every binding of key `k`. -/
def assocDel {α β : Type} [DecidableEq α] (l : List (α × β)) (k : α) : List (α × β) :=
  match l with
  | [] => []
  | (k', v) :: rest => if k' = k then assocDel rest k else (k', v) :: assocDel rest k

/-- Dynamic (`interface\x7b\x7d`) values that can reach `helper.SetValue`: the
types its switch names — `string`, `int`, `bool`, the struct case (a struct is
carried as the list of its fields, each flag recording whether that field equals
its zero value; the empty struct type `struct\x7b\x7d` is `struct []`) — plus
`other` for every remaining dynamic type. -/
inductive GoValue
  | str : String → GoValue
  | int : Int → GoValue
  | bool : Bool → GoValue
  | struct : List Bool → GoValue
  | other : GoValue
deriving DecidableEq

/-- Embedding of `helper.IsEmptyStruct`: a struct is empty when every field
equals its zero value (vacuously true for a zero-field struct); any non-struct
value yields `false`. -/
def IsEmptyStruct : GoValue → Bool
  | GoValue.struct fields => fields.all (fun isZero => isZero)
  | _ => false

/-- Embedding of `helper.SetValue`.  The Go type switch does not fall through:
`case string` returns the value only when non-empty; `case int` has an empty
body (falls to the default); `case bool` returns the value unconditionally;
`case struct\x7b\x7d` matches only the zero-field struct type and returns it only
when `IsEmptyStruct` is false; everything else falls to `defaultValue`. -/
def SetValue (value defaultValue : GoValue) : GoValue :=
  match value with
  | GoValue.str v => if v ≠ "" then GoValue.str v else defaultValue
  | GoValue.int _ => defaultValue
  | GoValue.bool b => GoValue.bool b
  | GoValue.struct [] =>
      if IsEmptyStruct (GoValue.struct []) = false then GoValue.struct [] else defaultValue
  | GoValue.struct (_ :: _) => defaultValue
  | GoValue.other => defaultValue

/-- The `config.Config` record: `Proxy.Addr` and `Manager.Addr`. -/
structure Config where
  proxyAddr : String
  managerAddr : String
deriving DecidableEq

/-- Outcome of opening and parsing the YAML config file in `loadConfig`:
`os.Open` fails (no file), `io.ReadAll` fails, `yaml.Unmarshal` fails, or a
`Config` is parsed. -/
inductive FileRead
  | openFail
  | readFail
  | unmarshalFail
  | parsed (c : Config)
deriving DecidableEq

/-- Result of `loadConfig` on the package-global `config`: it is set to a value,
left unset (the early `return` paths after a read or unmarshal error), or the
process dies in `log.Fatal` (the `filepath.Abs` error path). -/
inductive LoadOutcome
  | set (c : Config)
  | unset
  | fatalAbs
deriving DecidableEq

/-- The Go type assertion `.(string)` as used on `SetValue`'s result in
`loadConfig`; `loadConfig` only ever applies it to results of `SetValue` on two
string arguments, which are always strings, so the non-string branch is dead. -/
def typeAssertString : GoValue → String
  | GoValue.str s => s
  | _ => ""

/-- The two `SetValue` assignments at the end of `loadConfig`: each address is
the flag value unless it is empty, in which case the YAML value stands. -/
def applyFlagValues (result : Config) (proxyAddr managerAddr : String) : Config :=
  { proxyAddr := typeAssertString (SetValue (GoValue.str proxyAddr) (GoValue.str result.proxyAddr)),
    managerAddr :=
      typeAssertString (SetValue (GoValue.str managerAddr) (GoValue.str result.managerAddr)) }

/-- Embedding of `config.loadConfig`.  `absOk` is whether `filepath.Abs`
succeeds (on failure the code calls `log.Fatal`).  `pFlag`/`mFlag` are the
`-p`/`-m` command-line flags, `none` when not passed so that the registered
flag defaults `":8080"`/`":8081"` apply.  `result` starts as the zero `Config`;
when the file opens, a read or unmarshal error returns early without setting
the global; otherwise the parsed value (or the zero value when the file does
not open) gets the flag values applied and is stored. -/
def loadConfig (absOk : Bool) (pFlag mFlag : Option String) (file : FileRead) : LoadOutcome :=
  if absOk = false then LoadOutcome.fatalAbs
  else
    let proxyAddr := pFlag.getD ":8080"
    let managerAddr := mFlag.getD ":8081"
    match file with
    | FileRead.readFail => LoadOutcome.unset
    | FileRead.unmarshalFail => LoadOutcome.unset
    | FileRead.openFail => LoadOutcome.set (applyFlagValues ⟨"", ""⟩ proxyAddr managerAddr)
    | FileRead.parsed c => LoadOutcome.set (applyFlagValues c proxyAddr managerAddr)

/-- What a call to `config.GetConfig` can do: return a `Config` together with
the `error` result, or terminate the process (`log.Fatal`, reached either
inside `loadConfig` or when the global is still unset afterwards). -/
inductive GetConfigResult
  | ok (c : Config) (err : Option String)
  | fatalExit
deriving DecidableEq

/-- Embedding of `config.GetConfig`.  `cached` is the package-global `config`
at entry (`none` when still nil).  A cached value is returned with a nil error;
otherwise `loadConfig` runs, and a still-nil global means `log.Fatal`. -/
def GetConfig (cached : Option Config) (absOk : Bool) (pFlag mFlag : Option String)
    (file : FileRead) : GetConfigResult :=
  match cached with
  | some c => GetConfigResult.ok c none
  | none =>
    match loadConfig absOk pFlag mFlag file with
    | LoadOutcome.set c => GetConfigResult.ok c none
    | LoadOutcome.unset => GetConfigResult.fatalExit
    | LoadOutcome.fatalAbs => GetConfigResult.fatalExit

/-- State owned by the kitty `manager.Manage` loop: the single control
websocket `ws` (the `manager.ws` field, nil until a client registers), the
`pipes` map (ticket -> public connection waiting for its data socket) and the
`channels` map (ticket -> data websocket).  Connections are identified by
numbers standing for the Go pointers. -/
structure KManager where
  ws : Option Nat
  pipes : List (String × Nat)
  channels : List (String × Nat)
deriving DecidableEq

/-- The four events `Manage`'s select multiplexes: a new control websocket from
`registerWs`, a data websocket with its ticket from `registerChain`, a splice
end from `unregisterChain`, and a public connection from `Pipe` (the fresh
`uuid.NewString()` ticket minted for it is carried as a parameter). -/
inductive KEvent
  | registerWs (conn : Nat)
  | registerChain (uuid : String) (conn : Nat)
  | unregisterChain (uuid : String)
  | pipe (conn : Nat) (ticket : String)
deriving DecidableEq

/-- Observable actions of one `Manage` iteration.  `spliceStarted` is the
goroutine pair `helper.Copy(pipe, dest)` / `helper.Copy(dest, pipe)` (with the
pipe looked up in `pipes`, `none` when absent); `wroteTicket` is
`ws.WriteJSON` of the ticket message.  `wrote502` and `closedConn` are actions
the spec expects (502 responses, closing sockets) that the loop could perform
on its connections; they let theorems state that it never does. -/
inductive KEffect
  | spliceStarted (uuid : String) (pipe : Option Nat) (dataConn : Nat)
  | wroteTicket (ws : Nat) (ticket : String)
  | wrote502 (conn : Nat)
  | closedConn (conn : Nat)
deriving DecidableEq

/-- One iteration of `manager.Manage`: the select body, returning the updated
state and the effects performed.
* `registerWs`: `manager.ws = ws`.
* `registerChain`: store the data socket in `channels`, look the ticket up in
  `pipes` (Go yields the nil `net.Conn` when absent) and start the splice
  goroutines; the `pipes` entry is not touched here.
* `unregisterChain`: delete the ticket from both maps.
* `Pipe`: mint a ticket; when `manager.ws` is non-nil, send
  `\x7b"uuid": ticket\x7d` on it and record the pipe under the ticket; when nil,
  do nothing at all. -/
def KStep (s : KManager) : KEvent → KManager × List KEffect
  | KEvent.registerWs conn => ({ s with ws := some conn }, [])
  | KEvent.registerChain uuid conn =>
      ({ s with channels := assocSet s.channels uuid conn },
       [KEffect.spliceStarted uuid (assocGet s.pipes uuid) conn])
  | KEvent.unregisterChain uuid =>
      ({ s with channels := assocDel s.channels uuid, pipes := assocDel s.pipes uuid }, [])
  | KEvent.pipe conn ticket =>
      match s.ws with
      | some wsConn =>
          ({ s with pipes := assocSet s.pipes ticket conn },
           [KEffect.wroteTicket wsConn ticket])
      | none => (s, [])

/-- Run the `Manage` loop over a list of events, collecting all effects. -/
def KRun (s : KManager) : List KEvent → KManager × List KEffect
  | [] => (s, [])
  | e :: es =>
      let r := KStep s e
      let r' := KRun r.1 es
      (r'.1, r.2 ++ r'.2)

/-- A control websocket as the dispatcher sees it (`websocketConn`): domain,
the `AllowMultipleConnections` flag, and an identifier for the connection. -/
structure WsConn where
  domain : String
  allowMultiple : Bool
  id : Nat
deriving DecidableEq

/-- A public connection handed to the dispatcher (`common.RemoteConn`): its
extracted domain and an identifier. -/
structure RemoteConn where
  domain : String
  id : Nat
deriving DecidableEq

/-- State owned by the server dispatcher `Manager.manage`: the `hubs` map from
domain to `NetworkHub` (hubs identified by numbers standing for the Go
pointers) and a counter supplying the identity of the next hub
`NewNetworkHub` allocates. -/
structure DManager where
  hubs : List (String × Nat)
  nextHub : Nat
deriving DecidableEq

/-- The four events the dispatcher's select multiplexes. -/
inductive DEvent
  | registerDomain (conn : WsConn)
  | unregisterDomain (domain : String)
  | remoteConn (conn : RemoteConn)
  | done
deriving DecidableEq

/-- Observable actions of one `manage` iteration: starting a hub's `listen`
goroutine, sending on a hub's `registerWebSocket` / `shutdownSignal` /
`incomingClientConn` channels, writing bytes to and closing a remote
connection, and the loop returning on `done`. -/
inductive DEffect
  | hubStarted (domain : String) (hub : Nat)
  | sentRegisterWebSocket (hub : Nat) (conn : WsConn)
  | sentShutdown (hub : Nat)
  | wrote (conn : Nat) (data : String)
  | closedRemote (conn : Nat)
  | sentIncomingClientConn (hub : Nat) (conn : Nat)
  | loopExited
deriving DecidableEq

/-- The `badGatewayHeader` string literal (a Go raw string: real newlines). -/
def badGatewayHeader : String :=
  "HTTP/1.1 502 Bad Gateway\nContent-Type: text/html\nContent-Length: "

/-- The `badGatewayContent` string literal, the fixed short HTML document. -/
def badGatewayContent : String :=
  "<!DOCTYPE html>\n<html>\n<head>\n    <title>502 Bad Gateway</title>\n</head>\n<body>\n    <h1>Bad Gateway</h1>\n    <p>The server encountered a temporary error and could not complete your request.</p>\n</body>\n</html>"

/-- `badGatewayResponse = badGatewayHeader + fmt.Sprint(len(content)) + "\n\n"
+ content`; every character is ASCII so Go's byte length is `String.length`. -/
def badGatewayResponse : String :=
  badGatewayHeader ++ toString badGatewayContent.length ++ "\n\n" ++ badGatewayContent

/-- One iteration of the dispatcher `Manager.manage`:
* `registerDomain`: when no hub exists for the domain, allocate one and start
  its `listen` goroutine; in every case forward the websocket to the hub's
  `registerWebSocket` channel (the `AllowMultipleConnections` flag is not
  consulted here).
* `unregisterDomain`: when a hub exists, signal its shutdown and delete it.
* `remoteConn`: when no hub exists for the connection's domain, write the
  fixed 502 response and close it; otherwise hand it to the hub.
* `done`: return from the loop. -/
def DStep (s : DManager) : DEvent → DManager × List DEffect
  | DEvent.registerDomain conn =>
      match assocGet s.hubs conn.domain with
      | none =>
          let hub := s.nextHub
          ({ hubs := assocSet s.hubs conn.domain hub, nextHub := hub + 1 },
           [DEffect.hubStarted conn.domain hub, DEffect.sentRegisterWebSocket hub conn])
      | some hub => (s, [DEffect.sentRegisterWebSocket hub conn])
  | DEvent.unregisterDomain domain =>
      match assocGet s.hubs domain with
      | some hub => ({ s with hubs := assocDel s.hubs domain }, [DEffect.sentShutdown hub])
      | none => (s, [])
  | DEvent.remoteConn conn =>
      match assocGet s.hubs conn.domain with
      | none => (s, [DEffect.wrote conn.id badGatewayResponse, DEffect.closedRemote conn.id])
      | some hub => (s, [DEffect.sentIncomingClientConn hub conn.id])
  | DEvent.done => (s, [DEffect.loopExited])

section MapLemmas

variable {α β : Type} [DecidableEq α]

theorem assocGet_set_self (l : List (α × β)) (k : α) (v : β) :
    assocGet (assocSet l k v) k = some v := by
  induction l with
  | nil => simp [assocSet, assocGet]
  | cons p rest ih =>
      obtain ⟨k', v'⟩ := p
      by_cases h : k = k'
      · simp [assocSet, assocGet, h]
      · simp [assocSet, assocGet, h, ih]

theorem assocGet_set_ne (l : List (α × β)) (k k' : α) (v : β) (h : k ≠ k') :
    assocGet (assocSet l k' v) k = assocGet l k := by
  induction l with
  | nil => simp [assocSet, assocGet, h]
  | cons p rest ih =>
      obtain ⟨k₀, v₀⟩ := p
      by_cases h₀ : k' = k₀
      · subst h₀
        simp [assocSet, assocGet, h]
      · by_cases h₁ : k = k₀ <;> simp [assocSet, assocGet, h₀, h₁, ih]

theorem assocGet_set_ne_none (l : List (α × β)) (k k' : α) (v : β)
    (h : assocGet l k ≠ none) : assocGet (assocSet l k' v) k ≠ none := by
  by_cases hk : k = k'
  · subst hk
    simp [assocGet_set_self]
  · rw [assocGet_set_ne l k k' v hk]
    exact h

theorem assocGet_del_ne (l : List (α × β)) (k k' : α) (h : k ≠ k') :
    assocGet (assocDel l k') k = assocGet l k := by
  induction l with
  | nil => simp [assocDel]
  | cons p rest ih =>
      obtain ⟨k₀, v₀⟩ := p
      by_cases h₀ : k₀ = k'
      · subst h₀
        simp [assocDel, assocGet, ih, fun hkk : k = k₀ => h hkk]
      · by_cases h₁ : k = k₀ <;> simp [assocDel, assocGet, h₀, h₁, ih]

theorem mem_keys_assocSet (l : List (α × β)) (k a : α) (v : β) :
    a ∈ (assocSet l k v).map Prod.fst ↔ a ∈ l.map Prod.fst ∨ a = k := by
  induction l with
  | nil => simp [assocSet]
  | cons p rest ih =>
      obtain ⟨k₀, v₀⟩ := p
      by_cases h : k = k₀
      · subst h
        simp [assocSet]
        tauto
      · simp [assocSet, h, ih]
        tauto

theorem nodup_keys_assocSet (l : List (α × β)) (k : α) (v : β)
    (h : (l.map Prod.fst).Nodup) : ((assocSet l k v).map Prod.fst).Nodup := by
  induction l with
  | nil => simp [assocSet]
  | cons p rest ih =>
      obtain ⟨k₀, v₀⟩ := p
      simp only [List.map_cons, List.nodup_cons] at h
      by_cases hk : k = k₀
      · subst hk
        simpa [assocSet] using h
      · simp only [assocSet, if_neg hk, List.map_cons]
        refine List.nodup_cons.mpr ⟨?_, ih h.2⟩
        rw [mem_keys_assocSet]
        push_neg
        exact ⟨h.1, fun hkk => hk hkk.symm⟩

theorem assocDel_sublist (l : List (α × β)) (k : α) : List.Sublist (assocDel l k) l := by
  induction l with
  | nil => simp [assocDel]
  | cons p rest ih =>
      obtain ⟨k₀, v₀⟩ := p
      by_cases h : k₀ = k
      · simpa [assocDel, h] using ih.cons (k₀, v₀)
      · simpa [assocDel, h] using ih.cons₂ (k₀, v₀)

theorem nodup_keys_assocDel (l : List (α × β)) (k : α)
    (h : (l.map Prod.fst).Nodup) : ((assocDel l k).map Prod.fst).Nodup :=
  h.sublist ((assocDel_sublist l k).map Prod.fst)

end MapLemmas

section ManageLemmas

theorem KStep_no_502 (s : KManager) (e : KEvent) (c : Nat) :
    KEffect.wrote502 c ∉ (KStep s e).2 := by
  cases e with
  | registerWs conn => simp [KStep]
  | registerChain uuid conn => simp [KStep]
  | unregisterChain uuid => simp [KStep]
  | pipe conn ticket => cases h : s.ws <;> simp [KStep, h]

theorem KStep_no_close (s : KManager) (e : KEvent) (c : Nat) :
    KEffect.closedConn c ∉ (KStep s e).2 := by
  cases e with
  | registerWs conn => simp [KStep]
  | registerChain uuid conn => simp [KStep]
  | unregisterChain uuid => simp [KStep]
  | pipe conn ticket => cases h : s.ws <;> simp [KStep, h]

theorem KRun_no_502 (s : KManager) (es : List KEvent) (c : Nat) :
    KEffect.wrote502 c ∉ (KRun s es).2 := by
  induction es generalizing s with
  | nil => simp [KRun]
  | cons e es ih =>
      simp only [KRun, List.mem_append]
      push_neg
      exact ⟨KStep_no_502 s e c, ih (KStep s e).1⟩

theorem KRun_no_close (s : KManager) (es : List KEvent) (c : Nat) :
    KEffect.closedConn c ∉ (KRun s es).2 := by
  induction es generalizing s with
  | nil => simp [KRun]
  | cons e es ih =>
      simp only [KRun, List.mem_append]
      push_neg
      exact ⟨KStep_no_close s e c, ih (KStep s e).1⟩

theorem KStep_pending (s : KManager) (e : KEvent) (t : String)
    (hne : e ≠ KEvent.unregisterChain t) (hp : assocGet s.pipes t ≠ none) :
    assocGet (KStep s e).1.pipes t ≠ none := by
  cases e with
  | registerWs conn => simpa [KStep] using hp
  | registerChain uuid conn => simpa [KStep] using hp
  | unregisterChain uuid =>
      have huu : t ≠ uuid := fun h => hne (by rw [h])
      simpa [KStep, assocGet_del_ne _ _ _ huu] using hp
  | pipe conn ticket =>
      cases h : s.ws with
      | none => simpa [KStep, h] using hp
      | some wsConn => simpa [KStep, h] using assocGet_set_ne_none s.pipes t ticket conn hp

theorem KRun_pending (s : KManager) (es : List KEvent) (t : String)
    (hne : ∀ e ∈ es, e ≠ KEvent.unregisterChain t) (hp : assocGet s.pipes t ≠ none) :
    assocGet (KRun s es).1.pipes t ≠ none := by
  induction es generalizing s with
  | nil => simpa [KRun] using hp
  | cons e es ih =>
      simp only [KRun]
      exact ih (KStep s e).1 (fun e' he' => hne e' (List.mem_cons_of_mem e he'))
        (KStep_pending s e t (hne e (List.mem_cons_self e es)) hp)

end ManageLemmas

/-- C1, counterexample.  In the state with control socket `0` and ticket `"t"`
pending for public connection `1`, matching the DataSocket `2` leaves the
pending entry `("t", 1)` in `pipes`, and a second DataSocket `3` bearing the
same ticket is not rejected: the loop starts a second splice to the same
public connection and closes nothing. -/
theorem C1_counterexample :
    assocGet (KStep ⟨some 0, [("t", 1)], []⟩ (KEvent.registerChain "t" 2)).1.pipes "t"
        = some 1 ∧
    (KStep (KStep ⟨some 0, [("t", 1)], []⟩ (KEvent.registerChain "t" 2)).1
        (KEvent.registerChain "t" 3)).2
      = [KEffect.spliceStarted "t" (some 1) 3] := by
  exact ⟨rfl, rfl⟩

/-- C1, amended.  Matching a DataSocket to a ticket leaves the `pipes` map
unchanged (the pending entry is not removed at match time) and always starts a
splice with whatever `pipes` holds for the ticket; the entry is deleted only by
the `unregisterChain` event sent when the splice ends.  Hence a second
DataSocket with the same ticket starts a second splice instead of being
closed. -/
theorem C1_pending_removed_at_splice_end (s : KManager) (t : String) (c : Nat) :
    (KStep s (KEvent.registerChain t c)).1.pipes = s.pipes ∧
    (KStep s (KEvent.registerChain t c)).2
      = [KEffect.spliceStarted t (assocGet s.pipes t) c] ∧
    (KStep s (KEvent.unregisterChain t)).1.pipes = assocDel s.pipes t := by
  exact ⟨rfl, rfl, rfl⟩

/-- C2, counterexample.  With no control socket bound, an incoming public
connection `5` produces no effect at all: no 502 is written, nothing is
closed, and the state (in particular `pipes`) is unchanged. -/
theorem C2_counterexample :
    KStep ⟨none, [("x", 9)], []⟩ (KEvent.pipe 5 "t2") = (⟨none, [("x", 9)], []⟩, []) := by
  exact rfl

/-- C2, amended.  When `manager.ws` is nil, a public connection arriving on
`Pipe` is silently dropped: the state is unchanged (so no pending entry is
recorded) and the effect list is empty (so no 502 is written and the
connection is not closed). -/
theorem C2_no_control_silent_drop (s : KManager) (conn : Nat) (t : String)
    (h : s.ws = none) : KStep s (KEvent.pipe conn t) = (s, []) := by
  simp [KStep, h]

/-- C2, witness for the amended theorem at the empty state and connection 5. -/
theorem C2_witness :
    (⟨none, [], []⟩ : KManager).ws = none ∧
    KStep ⟨none, [], []⟩ (KEvent.pipe 5 "t1") = (⟨none, [], []⟩, []) := by
  exact ⟨rfl, C2_no_control_silent_drop ⟨none, [], []⟩ 5 "t1" rfl⟩

/-- C3, counterexample.  A DataSocket `8` bearing ticket `"t4"` with no pending
entry is not closed: the loop starts a splice against the absent (nil) pipe. -/
theorem C3_counterexample :
    (KStep ⟨some 0, [], []⟩ (KEvent.registerChain "t4" 8)).2
      = [KEffect.spliceStarted "t4" none 8] := by
  exact rfl

/-- C3, amended.  A DataSocket whose ticket has no pending entry is recorded in
`channels` and a splice is started against the nil pipe (`none`); the
DataSocket is not closed. -/
theorem C3_unknown_ticket_spliced_not_closed (s : KManager) (t : String) (c : Nat)
    (h : assocGet s.pipes t = none) :
    KStep s (KEvent.registerChain t c)
      = ({ s with channels := assocSet s.channels t c },
         [KEffect.spliceStarted t none c]) := by
  simp [KStep, h]

/-- C3, witness for the amended theorem at the empty pending table. -/
theorem C3_witness :
    assocGet (⟨some 0, [], []⟩ : KManager).pipes "t3" = none ∧
    KStep ⟨some 0, [], []⟩ (KEvent.registerChain "t3" 7)
      = (⟨some 0, [], [("t3", 7)]⟩, [KEffect.spliceStarted "t3" none 7]) := by
  exact ⟨rfl, C3_unknown_ticket_spliced_not_closed ⟨some 0, [], []⟩ "t3" 7 rfl⟩

/-- C4, counterexample.  Starting from the state where ticket `"t"` is pending
for public connection `1`, no finite run in which no DataSocket for `"t"`
arrives (and hence no splice for `"t"` ends) ever writes a 502 to the
connection or removes the pending entry: there is no expiry mechanism. -/
theorem C4_counterexample :
    ¬ ∃ es : List KEvent,
        (∀ e ∈ es, e ≠ KEvent.unregisterChain "t" ∧ ∀ c : Nat, e ≠ KEvent.registerChain "t" c) ∧
        (KEffect.wrote502 1 ∈ (KRun ⟨some 0, [("t", 1)], []⟩ es).2 ∨
          assocGet (KRun ⟨some 0, [("t", 1)], []⟩ es).1.pipes "t" = none) := by
  rintro ⟨es, hes, hbad⟩
  cases hbad with
  | inl h => exact KRun_no_502 ⟨some 0, [("t", 1)], []⟩ es 1 h
  | inr h =>
      exact KRun_pending ⟨some 0, [("t", 1)], []⟩ es "t"
        (fun e he => (hes e he).1) (by decide) h

/-- C4, amended.  The code defines no ticket expiry: over any finite run that
contains no `unregisterChain` for a pending ticket (the only event that can
delete it, and one sent only when that ticket's splice ends), the pending
entry survives, and the loop never writes a 502 to any connection nor closes
any connection. -/
theorem C4_no_ticket_expiry (s : KManager) (t : String) (es : List KEvent)
    (hne : ∀ e ∈ es, e ≠ KEvent.unregisterChain t)
    (hp : assocGet s.pipes t ≠ none) :
    assocGet (KRun s es).1.pipes t ≠ none ∧
    (∀ c : Nat, KEffect.wrote502 c ∉ (KRun s es).2) ∧
    (∀ c : Nat, KEffect.closedConn c ∉ (KRun s es).2) := by
  exact ⟨KRun_pending s es t hne hp, fun c => KRun_no_502 s es c, fun c => KRun_no_close s es c⟩

/-- C4, witness for the amended theorem over a concrete two-event run. -/
theorem C4_witness :
    (∀ e ∈ [KEvent.registerWs 2, KEvent.pipe 9 "u"], e ≠ KEvent.unregisterChain "t") ∧
    assocGet (⟨some 0, [("t", 1)], []⟩ : KManager).pipes "t" ≠ none ∧
    assocGet (KRun ⟨some 0, [("t", 1)], []⟩
        [KEvent.registerWs 2, KEvent.pipe 9 "u"]).1.pipes "t" ≠ none := by
  exact ⟨by decide, by decide,
    (C4_no_ticket_expiry ⟨some 0, [("t", 1)], []⟩ "t"
      [KEvent.registerWs 2, KEvent.pipe 9 "u"] (by decide) (by decide)).1⟩

/-- C5, counterexample.  With control socket `1` already bound, a second
registration installs socket `2` in its place: the existing socket reference
changes and the effect list is empty, so the newcomer is neither dropped nor
closed with any status and the old socket is not closed either. -/
theorem C5_counterexample :
    KStep ⟨some 1, [], []⟩ (KEvent.registerWs 2) = (⟨some 2, [], []⟩, []) := by
  exact rfl

/-- C5, amended.  A second registration is never dropped: the kitty manager
unconditionally replaces the stored control socket with the newcomer (there is
no `allowMultiple` check and no close), and the server dispatcher forwards
every registration for an existing hub to that hub's `registerWebSocket`
channel, leaving its own state unchanged and consulting no policy flag. -/
theorem C5_second_registration_replaces :
    (∀ (s : KManager) (c : Nat),
        KStep s (KEvent.registerWs c) = ({ s with ws := some c }, [])) ∧
    (∀ (s : DManager) (conn : WsConn) (hub : Nat),
        assocGet s.hubs conn.domain = some hub →
          DStep s (DEvent.registerDomain conn)
            = (s, [DEffect.sentRegisterWebSocket hub conn])) := by
  constructor
  · intro s c
    rfl
  · intro s conn hub h
    simp [DStep, h]

/-- C5, witness for the amended theorem: replacement of socket 1 by socket 2,
and forwarding of a non-multiple registration to the existing hub 0. -/
theorem C5_witness :
    KStep ⟨some 1, [("t", 4)], []⟩ (KEvent.registerWs 2) = (⟨some 2, [("t", 4)], []⟩, []) ∧
    assocGet (⟨[("a.test", 0)], 1⟩ : DManager).hubs "a.test" = some 0 ∧
    DStep ⟨[("a.test", 0)], 1⟩ (DEvent.registerDomain ⟨"a.test", false, 3⟩)
      = (⟨[("a.test", 0)], 1⟩, [DEffect.sentRegisterWebSocket 0 ⟨"a.test", false, 3⟩]) := by
  exact ⟨C5_second_registration_replaces.1 ⟨some 1, [("t", 4)], []⟩ 2, rfl,
    C5_second_registration_replaces.2 ⟨[("a.test", 0)], 1⟩ ⟨"a.test", false, 3⟩ 0 rfl⟩

/-- C6.  A public connection whose domain has no hub in the `hubs` map gets
exactly the fixed `badGatewayResponse` string written to it and is then
closed; the dispatcher state is unchanged and the effect list shows no other
I/O on the connection. -/
theorem C6_unknown_domain_502 (s : DManager) (conn : RemoteConn)
    (h : assocGet s.hubs conn.domain = none) :
    DStep s (DEvent.remoteConn conn)
      = (s, [DEffect.wrote conn.id badGatewayResponse, DEffect.closedRemote conn.id]) := by
  simp [DStep, h]

/-- C6, witness: a connection for `b.test` while only `a.test` has a hub. -/
theorem C6_witness :
    assocGet (⟨[("a.test", 0)], 1⟩ : DManager).hubs "b.test" = none ∧
    DStep ⟨[("a.test", 0)], 1⟩ (DEvent.remoteConn ⟨"b.test", 7⟩)
      = (⟨[("a.test", 0)], 1⟩,
         [DEffect.wrote 7 badGatewayResponse, DEffect.closedRemote 7]) := by
  exact ⟨by decide, C6_unknown_domain_502 ⟨[("a.test", 0)], 1⟩ ⟨"b.test", 7⟩ (by decide)⟩

/-- C7.  The `hubs` map keeps at most one hub per domain: every dispatcher
step preserves distinctness of the domain keys; a registration for a domain
that already has a hub leaves the map untouched and only forwards the socket
to the existing hub; unregistering a domain signals that hub's shutdown and
deletes its entry without touching other domains. -/
theorem C7_at_most_one_hub (s : DManager) (e : DEvent)
    (h : (s.hubs.map Prod.fst).Nodup) :
    ((DStep s e).1.hubs.map Prod.fst).Nodup ∧
    (∀ (conn : WsConn) (hub : Nat), assocGet s.hubs conn.domain = some hub →
        DStep s (DEvent.registerDomain conn) = (s, [DEffect.sentRegisterWebSocket hub conn])) ∧
    (∀ (d : String) (hub : Nat), assocGet s.hubs d = some hub →
        DStep s (DEvent.unregisterDomain d)
          = ({ s with hubs := assocDel s.hubs d }, [DEffect.sentShutdown hub])) := by
  refine ⟨?_, ?_, ?_⟩
  · cases e with
    | registerDomain conn =>
        cases hh : assocGet s.hubs conn.domain with
        | none => simpa [DStep, hh] using nodup_keys_assocSet s.hubs conn.domain s.nextHub h
        | some hub => simpa [DStep, hh] using h
    | unregisterDomain d =>
        cases hh : assocGet s.hubs d with
        | none => simpa [DStep, hh] using h
        | some hub => simpa [DStep, hh] using nodup_keys_assocDel s.hubs d h
    | remoteConn conn =>
        cases hh : assocGet s.hubs conn.domain with
        | none => simpa [DStep, hh] using h
        | some hub => simpa [DStep, hh] using h
    | done => simpa [DStep] using h
  · intro conn hub hh
    simp [DStep, hh]
  · intro d hub hh
    simp [DStep, hh]

/-- C7, witness: registering `a.test` a second time preserves key
distinctness. -/
theorem C7_witness :
    ((⟨[("a.test", 0)], 1⟩ : DManager).hubs.map Prod.fst).Nodup ∧
    ((DStep ⟨[("a.test", 0)], 1⟩
        (DEvent.registerDomain ⟨"a.test", true, 5⟩)).1.hubs.map Prod.fst).Nodup := by
  exact ⟨by decide,
    (C7_at_most_one_hub ⟨[("a.test", 0)], 1⟩
      (DEvent.registerDomain ⟨"a.test", true, 5⟩) (by decide)).1⟩

/-- C8, counterexample.  `SetValue` on a `bool` value returns the value
itself, not the default: booleans are not silently dropped. -/
theorem C8_counterexample :
    SetValue (GoValue.bool true) (GoValue.str "fallback") = GoValue.bool true ∧
    GoValue.bool true ≠ GoValue.str "fallback" := by
  exact ⟨rfl, by decide⟩

/-- C8, amended.  `SetValue` returns a non-empty string value, the default for
an empty string, the default for an `int` (empty switch case) and for the
empty-struct case (its `IsEmptyStruct` test is always true there) and for any
struct or other value — but a `bool` value is returned unconditionally. -/
theorem C8_setValue_cases (d : GoValue) :
    (∀ s : String, s ≠ "" → SetValue (GoValue.str s) d = GoValue.str s) ∧
    SetValue (GoValue.str "") d = d ∧
    (∀ n : Int, SetValue (GoValue.int n) d = d) ∧
    (∀ b : Bool, SetValue (GoValue.bool b) d = GoValue.bool b) ∧
    (∀ fields : List Bool, SetValue (GoValue.struct fields) d = d) ∧
    SetValue GoValue.other d = d := by
  refine ⟨fun s hs => by simp [SetValue, hs], rfl, fun n => rfl, fun b => rfl, ?_, rfl⟩
  intro fields
  cases fields with
  | nil => rfl
  | cons f fs => rfl

/-- C8, witness: the non-empty-string case at a concrete flag value. -/
theorem C8_witness :
    (":9000" : String) ≠ "" ∧
    SetValue (GoValue.str ":9000") (GoValue.str ":8080") = GoValue.str ":9000" := by
  exact ⟨by decide, (C8_setValue_cases (GoValue.str ":8080")).1 ":9000" (by decide)⟩

/-- C9.  With no command-line flags (both flag variables hold their registered
defaults) and no YAML file supplying addresses — whether the file fails to
open or parses to the zero config — `GetConfig` returns the config with proxy
address `:8080` and manager address `:8081`, and a nil error. -/
theorem C9_default_addresses :
    GetConfig none true none none FileRead.openFail
      = GetConfigResult.ok ⟨":8080", ":8081"⟩ none ∧
    GetConfig none true none none (FileRead.parsed ⟨"", ""⟩)
      = GetConfigResult.ok ⟨":8080", ":8081"⟩ none := by
  exact ⟨rfl, rfl⟩

/-- C10.  `GetConfig` can never hand its caller a non-nil error: on every
input it either returns some config paired with `none` or the process
terminates in `log.Fatal`. -/
theorem C10_error_always_nil (cached : Option Config) (absOk : Bool)
    (pFlag mFlag : Option String) (file : FileRead) :
    (∃ c : Config, GetConfig cached absOk pFlag mFlag file = GetConfigResult.ok c none) ∨
    GetConfig cached absOk pFlag mFlag file = GetConfigResult.fatalExit := by
  cases cached with
  | some c => exact Or.inl ⟨c, rfl⟩
  | none =>
      cases h : loadConfig absOk pFlag mFlag file with
      | set c => exact Or.inl ⟨c, by simp [GetConfig, h]⟩
      | unset => exact Or.inr (by simp [GetConfig, h])
      | fatalAbs => exact Or.inr (by simp [GetConfig, h])

end Kitty
